import Mathlib

/-!
Verification development for the Spredd Markets mention bot (`bot.py`).

Python strings are modelled as lists of unicode scalars (`PyStr`), matching
Python's `len`/slicing semantics on code points.  Fallible operations return
`Except`/`Option`; an uncaught Python exception is an `Except.error`.
-/

set_option maxRecDepth 100000

/-- Model of a Python `str`: a list of unicode code points (Python `len`
counts code points, as does `List.length` on `List Char`). -/
abbrev PyStr := List Char

/-- Model of a Python exception value (only its message matters here). -/
abbrev PyErr := List Char

/-- Code points of a Lean string literal, used wherever `bot.py` has a
string literal. -/
def pys (s : String) : PyStr := s.data

/-- Python whitespace test (`str.strip` removes these). -/
def isWs (c : Char) : Bool :=
  c.toNat = 32 || c.toNat = 9 || c.toNat = 10 || c.toNat = 13 || c.toNat = 11 || c.toNat = 12

/-- Decimal digit test on code points. -/
def isDigitChar (c : Char) : Bool :=
  48 ≤ c.toNat && c.toNat ≤ 57

/-- Value of a decimal digit character, `none` for anything else. -/
def digit? (c : Char) : Option Nat :=
  if isDigitChar c then some (c.toNat - 48) else none

/-- The decimal digit character for `n` (`n ≥ 9` gives `'9'`; callers only
use `n < 10`). -/
def digitChar (n : Nat) : Char :=
  if n = 0 then '0' else if n = 1 then '1' else if n = 2 then '2'
  else if n = 3 then '3' else if n = 4 then '4' else if n = 5 then '5'
  else if n = 6 then '6' else if n = 7 then '7' else if n = 8 then '8' else '9'

/-- Fuelled decimal rendering (structural recursion so that the kernel can
evaluate it); `toDigitsCore (n+1) n` renders `n` in decimal. -/
def toDigitsCore (fuel n : Nat) : List Char :=
  match fuel with
  | 0 => []
  | fuel + 1 => if n < 10 then [digitChar n] else toDigitsCore fuel (n / 10) ++ [digitChar (n % 10)]

/-- Model of Python `str(n)` for a non-negative integer. -/
def natToDigits (n : Nat) : PyStr := toDigitsCore (n + 1) n

/-- One step of decimal string parsing (`none` once a non-digit is seen). -/
def parseStep (acc : Option Nat) (c : Char) : Option Nat :=
  match acc, digit? c with
  | some a, some d => some (a * 10 + d)
  | _, _ => none

/-- Parse a non-empty all-digit string as a natural number. -/
def parseDigits (cs : PyStr) : Option Nat :=
  if cs.isEmpty then none else cs.foldl parseStep (some 0)

/-- Model of Python `int(s)` on an already-stripped string: optional sign
followed by at least one digit; anything else raises `ValueError` (`none`). -/
def pyInt (cs : PyStr) : Option Int :=
  match cs with
  | [] => none
  | c :: rest =>
    if c = '-' then (parseDigits rest).map (fun n => -(n : Int))
    else if c = '+' then (parseDigits rest).map (fun n => (n : Int))
    else (parseDigits (c :: rest)).map (fun n => (n : Int))

/-- Model of Python `str.strip()`. -/
def pyStrip (cs : PyStr) : PyStr :=
  ((cs.dropWhile isWs).reverse.dropWhile isWs).reverse

/-- `get_last_mention_id` (bot.py lines 75-85): the checkpoint file's
contents (`none` when the file does not exist) are stripped and parsed as an
integer; a `ValueError`/`IOError` is caught and `None` is returned. -/
def get_last_mention_id (fileContents : Option PyStr) : Option Int :=
  match fileContents with
  | none => none
  | some s => pyInt (pyStrip s)

/-- `set_last_mention_id` (bot.py lines 87-94): overwrite the checkpoint
file with `str(mention_id)` (the successful-write transition). -/
def set_last_mention_id (mention_id : Nat) (_fileContents : Option PyStr) : Option PyStr :=
  some (natToDigits mention_id)

-- scratch tests
example : natToDigits 42 = pys ("42") := rfl
example : pyInt (pys ("123")) = some 123 := rfl
example : pyInt (pys ("-7")) = some (-7) := rfl
example : pyInt (pys ("12a")) = none := rfl
example : pyStrip (pys ("  42\n")) = pys ("42") := rfl
example : get_last_mention_id (some (pys (" 99 "))) = some 99 := rfl
example : get_last_mention_id (some (pys ("corrupt!"))) = none := rfl
example : get_last_mention_id none = none := rfl

/-! ### Timestamp parsing and formatting

`bot.py` line 130 runs `datetime.fromisoformat(expiry.replace('Z', '+00:00'))`
and formats the result with `strftime("%b %d, %Y at %H:%M UTC")`. -/

/-- A parsed timestamp; the timezone offset is validated but not stored,
since `strftime` prints the wall-clock fields unchanged. -/
structure PyDatetime where
  year : Nat
  month : Nat
  day : Nat
  hour : Nat
  minute : Nat
  second : Nat
deriving DecidableEq

/-- Two decimal digits, returning the value and the remaining input. -/
def parse2 : PyStr → Option (Nat × PyStr)
  | a :: b :: rest =>
    match digit? a, digit? b with
    | some x, some y => some (x * 10 + y, rest)
    | _, _ => none
  | _ => none

/-- Four decimal digits, returning the value and the remaining input. -/
def parse4 : PyStr → Option (Nat × PyStr)
  | a :: b :: c :: d :: rest =>
    match digit? a, digit? b, digit? c, digit? d with
    | some x, some y, some z, some u => some (((x * 10 + y) * 10 + z) * 10 + u, rest)
    | _, _, _, _ => none
  | _ => none

/-- All characters are decimal digits. -/
def allDigits (cs : PyStr) : Bool := cs.all isDigitChar

/-- Fractional seconds: exactly six or exactly three digits (as
`datetime.fromisoformat` requires). -/
def parseFracDigits (cs : PyStr) : Option PyStr :=
  match cs with
  | a :: b :: c :: d :: e :: f :: rest =>
    if allDigits [a, b, c, d, e, f] then some rest
    else if allDigits [a, b, c] then some (d :: e :: f :: rest)
    else none
  | a :: b :: c :: rest => if allDigits [a, b, c] then some rest else none
  | _ => none

/-- UTC-offset suffix `±HH:MM[:SS[.ffffff]]`, or nothing; must consume the
rest of the string. -/
def parseOffset (cs : PyStr) : Option Unit :=
  match cs with
  | [] => some ()
  | c :: rest =>
    if c = '+' || c = '-' then
      match parse2 rest with
      | some (oh, r1) =>
        match r1 with
        | ':' :: r2 =>
          match parse2 r2 with
          | some (om, r3) =>
            if oh ≤ 23 && om ≤ 59 then
              match r3 with
              | [] => some ()
              | ':' :: r4 =>
                match parse2 r4 with
                | some (osec, r5) =>
                  if osec ≤ 59 then
                    match r5 with
                    | [] => some ()
                    | '.' :: r6 =>
                      match r6 with
                      | a :: b :: c2 :: d :: e :: f :: [] =>
                        if allDigits [a, b, c2, d, e, f] then some () else none
                      | _ => none
                    | _ => none
                  else none
                | none => none
              | _ => none
            else none
          | none => none
        | _ => none
      | none => none
    else none

/-- Time-of-day part `HH[:MM[:SS[.fff[fff]]]]`. -/
def parseTime (cs : PyStr) : Option (Nat × Nat × Nat × PyStr) :=
  match parse2 cs with
  | none => none
  | some (h, r1) =>
    match r1 with
    | ':' :: r2 =>
      match parse2 r2 with
      | none => none
      | some (mi, r3) =>
        match r3 with
        | ':' :: r4 =>
          match parse2 r4 with
          | none => none
          | some (sec, r5) =>
            match r5 with
            | '.' :: r6 => (parseFracDigits r6).map (fun r => (h, mi, sec, r))
            | _ => some (h, mi, sec, r5)
        | _ => some (h, mi, 0, r3)
    | _ => some (h, 0, 0, r1)

/-- Days in a month (proleptic Gregorian, as `datetime` validates). -/
def daysInMonth (year month : Nat) : Nat :=
  if month = 2 then
    if year % 4 = 0 && (year % 100 != 0 || year % 400 = 0) then 29 else 28
  else if month = 4 || month = 6 || month = 9 || month = 11 then 30
  else 31

/-- Model of `datetime.fromisoformat`: `YYYY-MM-DD[<sep>HH[:MM[:SS[.fff[fff]]]][±HH:MM[:SS[.ffffff]]]]`
with range validation; `none` models `ValueError`. -/
def pyFromIsoformat (cs : PyStr) : Option PyDatetime :=
  match parse4 cs with
  | none => none
  | some (y, r1) =>
    match r1 with
    | '-' :: r2 =>
      match parse2 r2 with
      | none => none
      | some (mo, r3) =>
        match r3 with
        | '-' :: r4 =>
          match parse2 r4 with
          | none => none
          | some (d, r5) =>
            if 1 ≤ y && 1 ≤ mo && mo ≤ 12 && 1 ≤ d && d ≤ daysInMonth y mo then
              match r5 with
              | [] => some ⟨y, mo, d, 0, 0, 0⟩
              | _sep :: r6 =>
                match parseTime r6 with
                | none => none
                | some (h, mi, sec, r7) =>
                  if h ≤ 23 && mi ≤ 59 && sec ≤ 59 then
                    match parseOffset r7 with
                    | some _ => some ⟨y, mo, d, h, mi, sec⟩
                    | none => none
                  else none
            else none
        | _ => none
    | _ => none

/-- Model of `str.replace('Z', '+00:00')` (every occurrence). -/
def replaceZ (cs : PyStr) : PyStr :=
  cs.flatMap (fun c => if c = 'Z' then pys ("+00:00") else [c])

/-- `%b`: abbreviated month name. -/
def monthAbbrev (m : Nat) : PyStr :=
  if m = 1 then pys ("Jan") else if m = 2 then pys ("Feb") else if m = 3 then pys ("Mar")
  else if m = 4 then pys ("Apr") else if m = 5 then pys ("May") else if m = 6 then pys ("Jun")
  else if m = 7 then pys ("Jul") else if m = 8 then pys ("Aug") else if m = 9 then pys ("Sep")
  else if m = 10 then pys ("Oct") else if m = 11 then pys ("Nov") else pys ("Dec")

/-- Zero-pad to two digits (`%d`, `%H`, `%M`). -/
def pad2 (n : Nat) : PyStr := if n < 10 then '0' :: natToDigits n else natToDigits n

/-- Zero-pad to four digits (`%Y`). -/
def pad4 (n : Nat) : PyStr :=
  if n < 10 then pys ("000") ++ natToDigits n
  else if n < 100 then pys ("00") ++ natToDigits n
  else if n < 1000 then pys ("0") ++ natToDigits n
  else natToDigits n

/-- Model of `strftime("%b %d, %Y at %H:%M UTC")`. -/
def pyStrftime (d : PyDatetime) : PyStr :=
  monthAbbrev d.month ++ pys (" ") ++ pad2 d.day ++ pys (", ") ++ pad4 d.year ++
    pys (" at ") ++ pad2 d.hour ++ pys (":") ++ pad2 d.minute ++ pys (" UTC")

-- scratch tests
example : pyFromIsoformat (replaceZ (pys ("2099-01-01T00:00:00Z"))) = some ⟨2099, 1, 1, 0, 0, 0⟩ := rfl
example : pyFromIsoformat (pys ("2025-01-02T03:04:05+00:00")) = some ⟨2025, 1, 2, 3, 4, 5⟩ := rfl
example : pyFromIsoformat (pys ("soon")) = none := rfl
example : pyFromIsoformat (pys ("2025-13-02T03:04:05")) = none := rfl
example : pyFromIsoformat (pys ("2025-02-30")) = none := rfl
example : pyFromIsoformat (pys ("2024-02-29")) = some ⟨2024, 2, 29, 0, 0, 0⟩ := rfl
example : pyStrftime ⟨2025, 1, 2, 3, 4, 5⟩ = pys ("Jan 02, 2025 at 03:04 UTC") := rfl
example : (pyStrftime ⟨2025, 1, 2, 3, 4, 5⟩).length = 25 := rfl

/-! ### Market records and the tweet formatter (bot.py lines 117-153) -/

/-- A row of the `markets` table.  `none` models an absent key; present
values are the stored strings.  `created_at` is an abstract sort key. -/
structure Market where
  title : Option PyStr
  description : Option PyStr
  question : Option PyStr
  expiry_date : Option PyStr
  id : Option PyStr
  image_url : Option PyStr
  status : PyStr
  created_at : Nat
deriving DecidableEq

/-- `market.get('title', market.get('description', 'Unknown Market'))`
(bot.py line 119). -/
def titleOrDesc (m : Market) : PyStr :=
  m.title.getD (m.description.getD (pys ("Unknown Market")))

/-- `market.get('title', market.get('description', ''))` (bot.py lines
143 and 145; note the different fallback). -/
def titleOrDescEmpty (m : Market) : PyStr :=
  m.title.getD (m.description.getD [])

/-- Question truncation (bot.py lines 123-125). -/
def truncQuestion (q : PyStr) : PyStr :=
  if 100 < q.length then q.take 97 ++ pys ("...") else q

/-- The `\n❓ {question}` segment, empty when `market.get('question')` is
falsy (bot.py lines 121-126). -/
def questionSeg (m : Market) : PyStr :=
  match m.question with
  | some q => if q.isEmpty then [] else pys ("\n❓ ") ++ truncQuestion q
  | none => []

/-- The successfully parsed-and-formatted expiry (`expiry_str`, bot.py
lines 130-131), `none` when line 130 raised. -/
def expiryParsed (m : Market) : Option PyStr :=
  match m.expiry_date with
  | some e => (pyFromIsoformat (replaceZ e)).map pyStrftime
  | none => none

/-- The expiry display text: the formatted timestamp, else the raw stored
value, else `"Unknown"` (bot.py lines 129-134). -/
def expiryText (m : Market) : PyStr :=
  match expiryParsed m with
  | some s => s
  | none => m.expiry_date.getD (pys ("Unknown"))

/-- The `\n⏰ Expires: ...` segment. -/
def expirySeg (m : Market) : PyStr := pys ("\n⏰ Expires: ") ++ expiryText m

/-- The `\n🔗 spredd.markets/market/{id}` segment, empty when
`market.get('id')` is falsy (bot.py lines 137-138). -/
def linkSeg (m : Market) : PyStr :=
  match m.id with
  | some i => if i.isEmpty then [] else pys ("\n🔗 spredd.markets/market/") ++ i
  | none => []

/-- Everything after the title in the composed tweet. -/
def tailSegs (m : Market) : PyStr := questionSeg m ++ expirySeg m ++ linkSeg m

/-- `🎯 Market {index}/{total}: ` (bot.py lines 119 and 146). -/
def headerPre (index total : Nat) : PyStr :=
  pys ("🎯 Market ") ++ natToDigits index ++ pys ("/") ++ natToDigits total ++ pys (": ")

/-- The full tweet text for a given title/description text `td` (built
incrementally in bot.py lines 119-138 and rebuilt identically on lines
146-151). -/
def composeText (m : Market) (index total : Nat) (td : PyStr) : PyStr :=
  headerPre index total ++ td ++ tailSegs m

/-- `t` begins with the segment `pre`. -/
def StartsWith (pre t : PyStr) : Prop := ∃ rest, t = pre ++ rest

/-- The segment `seg` occurs contiguously inside `t`. -/
def SegIn (seg t : PyStr) : Prop := ∃ p q, t = p ++ seg ++ q

/-- `format_market_tweet` (bot.py lines 117-153).  When the composed text
exceeds 280 characters and the recomputed budget
`max_desc_len = 280 - len(text) + len(title-or-description)` exceeds 20,
the title is cut to `max_desc_len - 3` characters plus `"..."` and the
tweet is rebuilt; the rebuild references `expiry_str` (line 149), which is
unbound when line 130 raised, so that path raises `NameError`
(`Except.error ()`). -/
def format_market_tweet (m : Market) (index total : Nat) : Except Unit PyStr :=
  if 280 < (composeText m index total (titleOrDesc m)).length then
    if 20 < (280 - ((composeText m index total (titleOrDesc m)).length : Int) + ((titleOrDescEmpty m).length : Int)) then
      match expiryParsed m with
      | none => Except.error ()
      | some _ =>
        Except.ok (composeText m index total
          ((titleOrDescEmpty m).take
            ((280 - ((composeText m index total (titleOrDesc m)).length : Int) + ((titleOrDescEmpty m).length : Int) - 3).toNat)
           ++ pys ("...")))
    else Except.ok (composeText m index total (titleOrDesc m))
  else Except.ok (composeText m index total (titleOrDesc m))

-- scratch tests
example : format_market_tweet
    { title := some (pys ("Will it rain?")), description := none, question := none,
      expiry_date := some (pys ("2099-01-01T00:00:00Z")), id := some (pys ("abc123")),
      image_url := none, status := pys ("live"), created_at := 1 } 1 1 =
  Except.ok (pys ("🎯 Market 1/1: Will it rain?\n⏰ Expires: Jan 01, 2099 at 00:00 UTC\n🔗 spredd.markets/market/abc123")) := rfl

/-! ### Market repository adapter (bot.py lines 97-114) -/

/-- Lexicographic strict order on strings, the order the store applies to
the ISO-format `expiry_date` column for `.gt`. -/
def lexLt : PyStr → PyStr → Bool
  | [], [] => false
  | [], _ :: _ => true
  | _ :: _, [] => false
  | a :: as, b :: bs => if a < b then true else if b < a then false else lexLt as bs

/-- The reachable data store: the rows of the `markets` table. -/
structure Store where
  rows : List Market
deriving DecidableEq

/-- Row filter of the query on line 103-105: `status = 'live'` and
`expiry_date > now` (a NULL column fails the comparison). -/
def marketLive (now : PyStr) (m : Market) : Bool :=
  m.status == pys ("live") &&
    (match m.expiry_date with
     | some e => lexLt now e
     | none => false)

/-- Stable insertion into a sorted list (`le a b` keeps `a` in front). -/
def insertOrdered (le : α → α → Bool) (a : α) : List α → List α
  | [] => [a]
  | b :: bs => if le a b then a :: b :: bs else b :: insertOrdered le a bs

/-- Stable sort by `le`; models the store's `ORDER BY` (and Python's
`sorted`, which is also a stable sort). -/
def orderBy (le : α → α → Bool) : List α → List α
  | [] => []
  | a :: as => insertOrdered le a (orderBy le as)

/-- The query of bot.py lines 103-107: filter live rows, order by
`created_at` descending, take `limit`. -/
def runQuery (store : Store) (now : PyStr) (limit : Nat) : List Market :=
  (orderBy (fun a b => Nat.ble b.created_at a.created_at)
    (store.rows.filter (marketLive now))).take limit

/-- `get_live_markets` (bot.py lines 97-114): run the query against the
store; any exception (connectivity, auth, ...) is caught, logged and turned
into the empty list. -/
def get_live_markets (conn : Except PyErr Store) (now : PyStr) (limit : Nat) : List Market :=
  match conn with
  | Except.ok store => runQuery store now limit
  | Except.error _ => []

/-! ### Media uploader (bot.py lines 156-178) -/

/-- `upload_market_image`: `getResp` is the outcome of the initial
`requests.get(..., stream=True)` plus `raise_for_status()` (bot.py lines
159-160, before any file exists); `streamResp` is the outcome of streaming
the body through `iter_content` into the temp file (lines 165-166), which
runs only after `open(temp_filename, 'wb')` on line 164 has already
created the file, so a mid-stream exception leaves a (partial) file on
disk; `uploadResp` is the outcome of `api.media_upload` (line 169);
`fname` is the generated temp filename and `fs` the files on disk.
Returns the optional media id and the resulting files on disk:
`os.remove` runs only on the fully successful path (line 172), and every
exception is caught at line 176 — after the file was created if the
initial request had succeeded. -/
def upload_market_image (getResp : Except PyErr Unit) (streamResp : Except PyErr Unit)
    (uploadResp : Except PyErr Nat) (fname : PyStr) (fs : List PyStr) :
    Option Nat × List PyStr :=
  match getResp with
  | Except.error _ => (none, fs)
  | Except.ok _ =>
    match streamResp with
    | Except.error _ => (none, fs ++ [fname])
    | Except.ok _ =>
      match uploadResp with
      | Except.error _ => (none, fs ++ [fname])
      | Except.ok mid => (some mid, (fs ++ [fname]).erase fname)

/-! ### Thread construction and mention processing (bot.py lines 181-277) -/

/-- A mention event returned by `client.get_mentions`. -/
structure Mention where
  id : Nat
  author_id : Nat
  created_at : Nat
deriving DecidableEq

/-- A successfully created tweet, as recorded by the posting interface. -/
structure Post where
  text : PyStr
  reply_to : Nat
  media : Option Nat
deriving DecidableEq

/-- The state `check_mentions` mutates: the checkpoint file's contents and
the list of tweets created so far (in creation order). -/
structure World where
  checkpoint : Option PyStr
  posts : List Post
deriving DecidableEq

/-- The external services: the mention listing (a function of the
`since_id` passed), the result of the n-th `client.create_tweet` call of
this poll (by global call counter), and the media handle produced by
`upload_market_image` for a URL (that function never raises). -/
structure Oracle where
  getMentions : Option Int → Except PyErr (Option (List Mention))
  createTweet : Nat → Except PyErr Nat
  uploadImage : PyStr → Option Nat

/-- Text of the no-markets reply (bot.py line 210). -/
def noMarketsText : PyStr :=
  pys ("No live markets available at the moment. Check back soon! 📊")

/-- Text of the thread-header tweet (bot.py line 220). -/
def threadHeaderText (n : Nat) : PyStr :=
  pys ("🚀 Here are ") ++ natToDigits n ++ pys (" live Spredd Markets! #SpreddTheWord\n\n🧵 Thread below 👇")

/-- Text of the closing tweet (bot.py line 260). -/
def closingText : PyStr :=
  pys ("📈 Explore all markets at spredd.markets\n\n🔔 Follow for live market updates!")

/-- The media handle attached to a market's tweet (bot.py lines 234-236
and 244-245): attempted only when `market.get('image_url')` is truthy;
`upload_market_image` itself never raises. -/
def marketMedia (o : Oracle) (m : Market) : Option Nat :=
  match m.image_url with
  | some url => if url.isEmpty then none else o.uploadImage url
  | none => none

/-- The per-market loop (bot.py lines 229-256): for market number `i`,
format the text (a raised exception is caught at line 254 and the market
skipped), attempt the image upload, then create the tweet reply-linked to
the current tail; on posting failure the market is skipped and the tail
unchanged. -/
def marketLoop (o : Oracle) (total : Nat) :
    List Market → Nat → World → Nat → Nat → World × Nat × Nat
  | [], _i, w, ctr, tail => (w, ctr, tail)
  | m :: rest, i, w, ctr, tail =>
    match format_market_tweet m i total with
    | Except.error _ => marketLoop o total rest (i + 1) w ctr tail
    | Except.ok text =>
      match o.createTweet ctr with
      | Except.error _ => marketLoop o total rest (i + 1) w (ctr + 1) tail
      | Except.ok tid =>
        marketLoop o total rest (i + 1)
          { w with posts := w.posts ++ [{ text := text, reply_to := tail, media := marketMedia o m }] }
          (ctr + 1) tid

/-- Processing of one mention (the body of the `for` loop, bot.py lines
200-274).  The accumulator carries the world and the tweet-call counter.
Both `continue` statements (lines 214 and 268) jump to the next mention,
skipping the `set_last_mention_id` call on line 271: the checkpoint is
written only when the whole thread (header, market loop, closing tweet)
completed without an uncaught exception. -/
def processMention (o : Oracle) (conn : Except PyErr Store) (now : PyStr)
    (acc : World × Nat) (mention : Mention) : World × Nat :=
  let w := acc.1
  let ctr := acc.2
  let live_markets := get_live_markets conn now 5
  if live_markets.isEmpty then
    match o.createTweet ctr with
    | Except.error _ => (w, ctr + 1)
    | Except.ok _ =>
      ({ w with posts := w.posts ++ [{ text := noMarketsText, reply_to := mention.id, media := none }] },
       ctr + 1)
  else
    match o.createTweet ctr with
    | Except.error _ => (w, ctr + 1)
    | Except.ok headerId =>
      let w1 : World :=
        { w with posts := w.posts ++ [{ text := threadHeaderText live_markets.length, reply_to := mention.id, media := none }] }
      let r := marketLoop o live_markets.length live_markets 1 w1 (ctr + 1) headerId
      match o.createTweet r.2.1 with
      | Except.error _ => (r.1, r.2.1 + 1)
      | Except.ok _ =>
        ({ checkpoint := some (natToDigits mention.id),
           posts := r.1.posts ++ [{ text := closingText, reply_to := r.2.2, media := none }] },
         r.2.1 + 1)

/-- Python's `sorted(mentions.data, key=lambda x: x.created_at)` (line 198):
a stable ascending sort. -/
def sortedByCreatedAt (ms : List Mention) : List Mention :=
  orderBy (fun a b => Nat.ble a.created_at b.created_at) ms

/-- The body of `check_mentions` inside the outer `try` (bot.py lines
184-274): read the checkpoint, list mentions since it (`None` data means no
new mentions), sort ascending by creation time and process each in turn. -/
def check_mentions_body (o : Oracle) (conn : Except PyErr Store) (now : PyStr)
    (w : World) : Except PyErr World :=
  match o.getMentions (get_last_mention_id w.checkpoint) with
  | Except.error e => Except.error e
  | Except.ok none => Except.ok w
  | Except.ok (some ms) =>
    Except.ok (((sortedByCreatedAt ms).foldl (fun acc mention => processMention o conn now acc mention) (w, 0)).1)

/-- `check_mentions` (bot.py lines 181-277): the whole body is wrapped in
`try ... except Exception` (line 276), so the function always returns
normally. -/
def check_mentions (o : Oracle) (conn : Except PyErr Store) (now : PyStr)
    (w : World) : Except PyErr World :=
  match check_mentions_body o conn now w with
  | Except.error _ => Except.ok w
  | Except.ok w2 => Except.ok w2

/-! ### Main polling loop (bot.py lines 299-332) -/

/-- What the main loop does after a `check_mentions` call before polling
again. -/
inductive LoopAction where
  | poll (sleepSeconds : Nat)
  | terminated
deriving DecidableEq

/-- One iteration of the `while True` loop (bot.py lines 311-332): on
success the consecutive-error counter resets and the loop sleeps 60s; on an
exception the counter increments, the loop breaks once it reaches 5, and
otherwise sleeps `min(300, 60 * 2 ** consecutive_errors)`. -/
def mainStep (res : Except PyErr World) (consecutive_errors : Nat) : Nat × LoopAction :=
  match res with
  | Except.ok _ => (0, LoopAction.poll 60)
  | Except.error _ =>
    let errs := consecutive_errors + 1
    if 5 ≤ errs then (errs, LoopAction.terminated)
    else (errs, LoopAction.poll (min 300 (60 * 2 ^ errs)))

/-! ### Concrete inputs used by the per-claim evaluations -/

/-- A posting interface whose every `create_tweet` call raises. -/
def c1oracle : Oracle :=
  { getMentions := fun _ => Except.ok none
    createTweet := fun _ => Except.error (pys ("500 Internal Server Error"))
    uploadImage := fun _ => none }

/-- A posting interface whose every `create_tweet` call succeeds. -/
def c1oracleOk : Oracle :=
  { getMentions := fun _ => Except.ok none
    createTweet := fun n => Except.ok (100 + n)
    uploadImage := fun _ => none }

/-- A live market, unexpired far into the future. -/
def c1market : Market :=
  { title := some (pys ("Will BTC close above 100k?"))
    description := none
    question := none
    expiry_date := some (pys ("2099-01-01T00:00:00Z"))
    id := some (pys ("abc123"))
    image_url := none
    status := pys ("live")
    created_at := 1 }

/-- The caller's clock at query time. -/
def c1now : PyStr := pys ("2025-10-12T00:00:00")

/-- The mention being processed. -/
def c1mention : Mention := { id := 42, author_id := 7, created_at := 0 }

/-- Fresh state: no checkpoint file, no tweets created yet. -/
def c1world : World := { checkpoint := none, posts := [] }

/-- A posting interface whose calls succeed (C3's scenario). -/
def c3oracle : Oracle :=
  { getMentions := fun _ => Except.ok none
    createTweet := fun n => Except.ok (200 + n)
    uploadImage := fun _ => none }

/-- A market record with no title, no description and a 250-character
unparseable expiry: the composed text is 290 characters and the
re-truncation budget is negative. -/
def c2market : Market :=
  { title := none
    description := none
    question := none
    expiry_date := some (pys ("xxxxxxxxxxxxxxxxxxxxxxxxxxxxxxxxxxxxxxxxxxxxxxxxxxxxxxxxxxxxxxxxxxxxxxxxxxxxxxxxxxxxxxxxxxxxxxxxxxxxxxxxxxxxxxxxxxxxxxxxxxxxxxxxxxxxxxxxxxxxxxxxxxxxxxxxxxxxxxxxxxxxxxxxxxxxxxxxxxxxxxxxxxxxxxxxxxxxxxxxxxxxxxxxxxxxxxxxxxxxxxxxxxxxxxxxxxxxxxxxxxxxxxxxxx"))
    id := none
    image_url := none
    status := pys ("live")
    created_at := 0 }

/-- A short market whose composed tweet is well under the limit. -/
def c2small : Market :=
  { title := some (pys ("Rain tomorrow?"))
    description := none
    question := none
    expiry_date := some (pys ("2025-01-02T03:04:05Z"))
    id := none
    image_url := none
    status := pys ("live")
    created_at := 0 }

/-- A market with a 300-character title and a parseable expiry: the
composed text exceeds 280 and the re-truncation path fires with a budget
above 20. -/
def c2big : Market :=
  { title := some (pys ("aaaaaaaaaaaaaaaaaaaaaaaaaaaaaaaaaaaaaaaaaaaaaaaaaaaaaaaaaaaaaaaaaaaaaaaaaaaaaaaaaaaaaaaaaaaaaaaaaaaaaaaaaaaaaaaaaaaaaaaaaaaaaaaaaaaaaaaaaaaaaaaaaaaaaaaaaaaaaaaaaaaaaaaaaaaaaaaaaaaaaaaaaaaaaaaaaaaaaaaaaaaaaaaaaaaaaaaaaaaaaaaaaaaaaaaaaaaaaaaaaaaaaaaaaaaaaaaaaaaaaaaaaaaaaaaaaaaaaaaaaaaaaaaaaaaaaaaaaaaa"))
    description := none
    question := none
    expiry_date := some (pys ("2025-01-02T03:04:05Z"))
    id := none
    image_url := none
    status := pys ("live")
    created_at := 0 }

/-- A market with a 300-character title and an unparseable expiry: the
re-truncation path fires (budget 250 > 20) with `expiry_str` unbound. -/
def c4market : Market :=
  { title := some (pys ("aaaaaaaaaaaaaaaaaaaaaaaaaaaaaaaaaaaaaaaaaaaaaaaaaaaaaaaaaaaaaaaaaaaaaaaaaaaaaaaaaaaaaaaaaaaaaaaaaaaaaaaaaaaaaaaaaaaaaaaaaaaaaaaaaaaaaaaaaaaaaaaaaaaaaaaaaaaaaaaaaaaaaaaaaaaaaaaaaaaaaaaaaaaaaaaaaaaaaaaaaaaaaaaaaaaaaaaaaaaaaaaaaaaaaaaaaaaaaaaaaaaaaaaaaaaaaaaaaaaaaaaaaaaaaaaaaaaaaaaaaaaaaaaaaaaaaaaaaaaa"))
    description := none
    question := none
    expiry_date := some (pys ("soon"))
    id := none
    image_url := none
    status := pys ("live")
    created_at := 0 }

-- scratch evaluation checks against the real Python behavior
example : (format_market_tweet c2market 1 1).toOption.map List.length = some 290 := rfl
example : format_market_tweet c4market 1 1 = Except.error () := rfl
example : (format_market_tweet c2big 1 1).toOption.map List.length = some 280 := rfl
example : (format_market_tweet c2small 1 1).toOption.map List.length = some 65 := rfl
example :
    (processMention c1oracle (Except.ok (Store.mk [c1market])) c1now (c1world, 0) c1mention).1 =
      { checkpoint := none, posts := [] } := rfl
example :
    (processMention c1oracleOk (Except.ok (Store.mk [c1market])) c1now (c1world, 0) c1mention).1.checkpoint =
      some (natToDigits 42) := rfl
example :
    (processMention c3oracle (Except.ok (Store.mk [])) c1now (c1world, 0) c1mention).1 =
      { checkpoint := none, posts := [{ text := noMarketsText, reply_to := 42, media := none }] } := rfl

/-! ## Theorems -/

/-- Every character produced by `digitChar` is a decimal digit. -/
theorem isDigitChar_digitChar (n : Nat) : isDigitChar (digitChar n) = true := by
  unfold digitChar
  repeat' split
  all_goals decide

/-- `digit?` inverts `digitChar` below 10. -/
theorem digit?_digitChar (n : Nat) (h : n < 10) : digit? (digitChar n) = some n := by
  interval_cases n <;> rfl

/-- `toDigitsCore` with positive fuel is never empty. -/
theorem toDigitsCore_succ_ne_nil (fuel n : Nat) : toDigitsCore (fuel + 1) n ≠ [] := by
  unfold toDigitsCore
  split <;> simp

/-- Every character of a rendered number is a digit. -/
theorem mem_toDigitsCore_digit :
    ∀ (fuel n : Nat) (c : Char), c ∈ toDigitsCore fuel n → isDigitChar c = true := by
  intro fuel
  induction fuel with
  | zero => intro n c hc; simp [toDigitsCore] at hc
  | succ f ih =>
    intro n c hc
    unfold toDigitsCore at hc
    split at hc
    · simp at hc; subst hc; exact isDigitChar_digitChar n
    · rw [List.mem_append] at hc
      rcases hc with h | h
      · exact ih _ _ h
      · simp at h; subst h; exact isDigitChar_digitChar (n % 10)

/-- Folding `parseStep` over a rendered number recovers it. -/
theorem foldl_parseStep_toDigitsCore :
    ∀ (fuel n acc : Nat), n < fuel →
      (toDigitsCore fuel n).foldl parseStep (some acc) =
        some (acc * 10 ^ (toDigitsCore fuel n).length + n) := by
  intro fuel
  induction fuel with
  | zero => intro n acc h; exact absurd h (Nat.not_lt_zero n)
  | succ f ih =>
    intro n acc h
    unfold toDigitsCore
    split
    · rename_i h10
      simp [List.foldl, parseStep, digit?_digitChar _ h10, pow_one]
    · rename_i h10
      push_neg at h10
      have hdiv : n / 10 < f := by
        have h1 : n / 10 < n := Nat.div_lt_self (by omega) (by omega)
        omega
      rw [List.foldl_append, ih (n / 10) acc hdiv]
      have hm : n % 10 < 10 := Nat.mod_lt _ (by omega)
      have hmod : n / 10 * 10 + n % 10 = n := by omega
      simp only [List.foldl, parseStep, digit?_digitChar _ hm, List.length_append,
        List.length_cons, List.length_nil]
      congr 1
      calc (acc * 10 ^ (toDigitsCore f (n / 10)).length + n / 10) * 10 + n % 10
          = acc * (10 ^ (toDigitsCore f (n / 10)).length * 10) + (n / 10 * 10 + n % 10) := by ring
        _ = acc * 10 ^ ((toDigitsCore f (n / 10)).length + (0 + 1)) + n := by
            rw [hmod]; ring_nf

/-- `parseDigits` inverts `natToDigits`. -/
theorem parseDigits_natToDigits (n : Nat) : parseDigits (natToDigits n) = some n := by
  unfold parseDigits natToDigits
  have hne : toDigitsCore (n + 1) n ≠ [] := toDigitsCore_succ_ne_nil n n
  rw [if_neg (by simpa [List.isEmpty_iff] using hne)]
  rw [foldl_parseStep_toDigitsCore (n + 1) n 0 (by omega)]
  simp

/-- An all-digit string is untouched by a leading-whitespace strip. -/
theorem dropWhile_isWs_of_digits {l : PyStr} (h : ∀ c ∈ l, isDigitChar c = true) :
    l.dropWhile isWs = l := by
  cases l with
  | nil => rfl
  | cons c t =>
    have hd : isDigitChar c = true := h c (by simp)
    have hw : isWs c = false := by
      simp only [isDigitChar, Bool.and_eq_true, decide_eq_true_eq] at hd
      simp only [isWs, Bool.or_eq_false_iff, decide_eq_false_iff_not]
      omega
    simp [List.dropWhile_cons, hw]

/-- An all-digit string is untouched by `str.strip()`. -/
theorem pyStrip_digits {l : PyStr} (h : ∀ c ∈ l, isDigitChar c = true) : pyStrip l = l := by
  unfold pyStrip
  rw [dropWhile_isWs_of_digits h,
      dropWhile_isWs_of_digits (fun c hc => h c (List.mem_reverse.mp hc)),
      List.reverse_reverse]

/-- C8: checkpoint round-trip.  Writing any mention identifier with
`set_last_mention_id` and reading it back with `get_last_mention_id`
returns the same identifier; with no stored state (fresh run) the load
returns `none`, and corrupt/unparseable contents also load as `none`. -/
theorem c8_checkpoint_roundtrip (id : Nat) (fs : Option PyStr) :
    get_last_mention_id (set_last_mention_id id fs) = some (id : Int) ∧
    get_last_mention_id none = none ∧
    get_last_mention_id (some (pys ("corrupt state!"))) = none := by
  refine ⟨?_, rfl, rfl⟩
  show pyInt (pyStrip (natToDigits id)) = some (id : Int)
  have hdig : ∀ c ∈ natToDigits id, isDigitChar c = true :=
    fun c hc => mem_toDigitsCore_digit _ _ c hc
  rw [pyStrip_digits hdig]
  obtain ⟨c, t, hct⟩ : ∃ c t, natToDigits id = c :: t := by
    cases hh : natToDigits id with
    | nil => exact absurd hh (toDigitsCore_succ_ne_nil id id)
    | cons c t => exact ⟨c, t, rfl⟩
  have hc : isDigitChar c = true := hdig c (by rw [hct]; simp)
  have hminus : c ≠ '-' := by intro he; rw [he] at hc; exact absurd hc (by decide)
  have hplus : c ≠ '+' := by intro he; rw [he] at hc; exact absurd hc (by decide)
  rw [hct]
  show pyInt (c :: t) = some (id : Int)
  simp only [pyInt, if_neg hminus, if_neg hplus]
  rw [← hct, parseDigits_natToDigits]
  rfl

/-- C9: `check_mentions` never propagates an exception: for every
environment (mention source, posting interface, store connection, clock,
prior state) it returns normally, so one main-loop iteration around it
always resets the consecutive-failure counter to zero and sleeps the
regular 60 seconds — the backoff/termination path is unreachable through a
`check_mentions` call. -/
theorem c9_check_mentions_never_fails (o : Oracle) (conn : Except PyErr Store)
    (now : PyStr) (w : World) (errs : Nat) :
    (∃ w2, check_mentions o conn now w = Except.ok w2) ∧
    mainStep (check_mentions o conn now w) errs = (0, LoopAction.poll 60) := by
  unfold check_mentions
  cases check_mentions_body o conn now w with
  | error e => exact ⟨⟨w, rfl⟩, rfl⟩
  | ok w2 => exact ⟨⟨w2, rfl⟩, rfl⟩

/-- The repository adapter returns at most `limit` records. -/
theorem get_live_markets_length_le (conn : Except PyErr Store) (now : PyStr) (limit : Nat) :
    (get_live_markets conn now limit).length ≤ limit := by
  cases conn with
  | error e => simp [get_live_markets]
  | ok store =>
    simp only [get_live_markets, runQuery, List.length_take]
    omega

/-- The per-market loop adds at most one post per market. -/
theorem marketLoop_posts_length (o : Oracle) (total : Nat) :
    ∀ (ms : List Market) (i : Nat) (w : World) (ctr tail : Nat),
      ((marketLoop o total ms i w ctr tail).1.posts).length ≤ w.posts.length + ms.length := by
  intro ms
  induction ms with
  | nil => intro i w ctr tail; simp [marketLoop]
  | cons m rest ih =>
    intro i w ctr tail
    unfold marketLoop
    split
    · refine le_trans (ih (i + 1) w ctr tail) ?_
      simp only [List.length_cons]
      omega
    · split
      · refine le_trans (ih (i + 1) w (ctr + 1) tail) ?_
        simp only [List.length_cons]
        omega
      · rename_i text htext tid htid
        refine le_trans (ih (i + 1) _ (ctr + 1) tid) ?_
        simp only [List.length_append, List.length_cons, List.length_nil]
        omega

/-- C10: the repository adapter returns at most `limit` records, and
processing a single mention creates at most 7 posts: one header, at most 5
market posts (`check_mentions` requests `limit=5`), and one closing
post. -/
theorem c10_thread_post_bounds (conn : Except PyErr Store) (now : PyStr) (limit : Nat)
    (o : Oracle) (w : World) (ctr : Nat) (mention : Mention) :
    (get_live_markets conn now limit).length ≤ limit ∧
    ((processMention o conn now (w, ctr) mention).1.posts).length ≤ w.posts.length + 7 := by
  refine ⟨get_live_markets_length_le conn now limit, ?_⟩
  have h5 : (get_live_markets conn now 5).length ≤ 5 := get_live_markets_length_le conn now 5
  simp only [processMention]
  split
  · split
    · simp
    · simp only [List.length_append, List.length_cons, List.length_nil]
      omega
  · split
    · simp
    · rename_i headerId hok
      have hb := marketLoop_posts_length o (get_live_markets conn now 5).length
        (get_live_markets conn now 5) 1
        { w with posts := w.posts ++ [{ text := threadHeaderText (get_live_markets conn now 5).length,
                                        reply_to := mention.id, media := none }] }
        (ctr + 1) headerId
      simp only [List.length_append, List.length_cons, List.length_nil] at hb
      split
      · simp only [Prod.fst]
        omega
      · simp only [List.length_append, List.length_cons, List.length_nil]
        omega

/-- C1: evaluation at the failing input.  When thread construction raises
before any post succeeds (here: `create_tweet` fails on the header tweet),
the `continue` in the per-mention `except` block (bot.py line 268) skips
`set_last_mention_id` (line 271): the checkpoint is NOT advanced past the
mention (it stays `none`) and no post is created, so the same mention is
refetched and retried on the next poll — contradicting the claim that the
checkpoint still advances.  The third conjunct shows that on the fully
successful path the same model does advance the checkpoint to the mention
id, isolating the divergence to the failure path. -/
theorem c1_checkpoint_not_advanced_on_failure :
    (processMention c1oracle (Except.ok (Store.mk [c1market])) c1now (c1world, 0) c1mention).1.checkpoint = none ∧
    (processMention c1oracle (Except.ok (Store.mk [c1market])) c1now (c1world, 0) c1mention).1.posts = [] ∧
    (processMention c1oracleOk (Except.ok (Store.mk [c1market])) c1now (c1world, 0) c1mention).1.checkpoint =
      some (natToDigits 42) :=
  ⟨rfl, rfl, rfl⟩

/-- C3: evaluation at the failing input.  When the repository returns zero
live markets, exactly one reply post is created (the no-live-markets
message, reply-linked to the mention), but the `continue` on bot.py line
214 skips `set_last_mention_id` (line 271): the checkpoint is NOT advanced
past the mention — contradicting the claim's second half. -/
theorem c3_no_markets_reply_without_checkpoint :
    (processMention c3oracle (Except.ok (Store.mk [])) c1now (c1world, 0) c1mention).1.posts =
      [{ text := noMarketsText, reply_to := 42, media := none }] ∧
    (processMention c3oracle (Except.ok (Store.mk [])) c1now (c1world, 0) c1mention).1.checkpoint = none :=
  ⟨rfl, rfl⟩

/-- C4: evaluation at the failing input.  For a market whose expiry is
unparseable and whose composed text exceeds 280 characters with a
re-truncation budget above 20 (here: a 300-character title and expiry
`"soon"`), the rebuild on bot.py line 149 references the unbound variable
`expiry_str` and the function raises `NameError` instead of returning —
contradicting the claim that `format_market_tweet` never raises and falls
back to the raw stored expiry. -/
theorem c4_format_raises_nameerror :
    format_market_tweet c4market 1 1 = Except.error () :=
  rfl

/-- C5 counterexample: on a connectivity/auth error `get_live_markets`
returns the empty list — exactly the value returned for a reachable store
with no eligible rows — so no distinguishable `RepositoryUnavailable`
failure is signalled to the caller. -/
theorem c5_error_indistinguishable :
    get_live_markets (Except.error (pys ("connection refused"))) c1now 10 = ([] : List Market) ∧
    get_live_markets (Except.ok (Store.mk [])) c1now 10 = ([] : List Market) :=
  ⟨rfl, rfl⟩

/-- C5 (amended): `get_live_markets` returns the empty sequence when the
store is reachable but has no eligible rows, and it also returns the empty
sequence (after logging) on connectivity/auth errors; the two cases are
indistinguishable to the caller. -/
theorem c5_empty_and_error_both_empty (e : PyErr) (store : Store) (now : PyStr) (limit : Nat)
    (h : store.rows.filter (marketLive now) = []) :
    get_live_markets (Except.ok store) now limit = [] ∧
    get_live_markets (Except.error e) now limit = [] := by
  refine ⟨?_, rfl⟩
  simp [get_live_markets, runQuery, h, orderBy]

/-- C5 witness: the amended theorem at a concrete store and error. -/
theorem c5_empty_and_error_both_empty_witness :
    get_live_markets (Except.ok (Store.mk [])) (pys ("2025-01-01T00:00:00")) 10 = [] ∧
    get_live_markets (Except.error (pys ("auth failed"))) (pys ("2025-01-01T00:00:00")) 10 = [] :=
  c5_empty_and_error_both_empty (pys ("auth failed")) (Store.mk [])
    (pys ("2025-01-01T00:00:00")) 10 rfl

/-- C6 counterexample: two exit paths leave the temporary file on disk —
when the body streamed and `api.media_upload` raises (first two
conjuncts), and when the streaming itself fails mid-download after
`open(temp_filename, 'wb')` already created the file (third conjunct).  In
both cases the caught-exception path returns `None` with the (possibly
partial) temporary file still existing. -/
theorem c6_leak_on_upload_failure :
    (upload_market_image (Except.ok ()) (Except.ok ()) (Except.error (pys ("upload timeout")))
        (pys ("temp_image_1700000000.jpg")) []).2 = [pys ("temp_image_1700000000.jpg")] ∧
    pys ("temp_image_1700000000.jpg") ∈
      (upload_market_image (Except.ok ()) (Except.ok ()) (Except.error (pys ("upload timeout")))
        (pys ("temp_image_1700000000.jpg")) []).2 ∧
    pys ("temp_image_1700000000.jpg") ∈
      (upload_market_image (Except.ok ()) (Except.error (pys ("connection reset mid-stream")))
        (Except.ok 5) (pys ("temp_image_1700000000.jpg")) []).2 :=
  ⟨rfl, by decide, by decide⟩

/-- C6 (amended): `upload_market_image` leaves the filesystem unchanged
only when the initial request or its status check fails (no file exists
yet), and removes the temporary file on the fully successful path; but
when streaming the body fails after the file was created, or when the
platform upload raises after the file was written, the caught-exception
path leaves the (possibly partial) temporary file on disk. -/
theorem c6_temp_file_cleanup (e1 e2 : PyErr) (s : Except PyErr Unit) (u : Except PyErr Nat)
    (mid : Nat) (fname : PyStr) (fs : List PyStr) (hf : fname ∉ fs) :
    (upload_market_image (Except.error e1) s u fname fs).2 = fs ∧
    (upload_market_image (Except.ok ()) (Except.ok ()) (Except.ok mid) fname fs).2 = fs ∧
    fname ∉ (upload_market_image (Except.ok ()) (Except.ok ()) (Except.ok mid) fname fs).2 ∧
    fname ∈ (upload_market_image (Except.ok ()) (Except.error e2) u fname fs).2 ∧
    fname ∈ (upload_market_image (Except.ok ()) (Except.ok ()) (Except.error e2) fname fs).2 := by
  have herase : (fs ++ [fname]).erase fname = fs := by
    rw [List.erase_append_right _ hf, List.erase_cons_head, List.append_nil]
  refine ⟨rfl, ?_, ?_, ?_, ?_⟩
  · show (fs ++ [fname]).erase fname = fs
    exact herase
  · show fname ∉ (fs ++ [fname]).erase fname
    rw [herase]; exact hf
  · show fname ∈ fs ++ [fname]
    simp
  · show fname ∈ fs ++ [fname]
    simp

/-- C6 witness: the amended theorem at a concrete filename and outcomes. -/
theorem c6_temp_file_cleanup_witness :
    (upload_market_image (Except.error (pys ("404"))) (Except.ok ()) (Except.ok 99)
        (pys ("temp_image_1.jpg")) []).2 = [] ∧
    (upload_market_image (Except.ok ()) (Except.ok ()) (Except.ok 99)
        (pys ("temp_image_1.jpg")) []).2 = [] ∧
    pys ("temp_image_1.jpg") ∉
      (upload_market_image (Except.ok ()) (Except.ok ()) (Except.ok 99)
        (pys ("temp_image_1.jpg")) []).2 ∧
    pys ("temp_image_1.jpg") ∈
      (upload_market_image (Except.ok ()) (Except.error (pys ("err"))) (Except.ok 99)
        (pys ("temp_image_1.jpg")) []).2 ∧
    pys ("temp_image_1.jpg") ∈
      (upload_market_image (Except.ok ()) (Except.ok ()) (Except.error (pys ("err")))
        (pys ("temp_image_1.jpg")) []).2 :=
  c6_temp_file_cleanup (pys ("404")) (pys ("err")) (Except.ok ()) (Except.ok 99) 99
    (pys ("temp_image_1.jpg")) [] (List.not_mem_nil _)

/-- C7 counterexample: at the fifth consecutive failure the main loop
breaks out (terminates the process) before any sleep, so no backoff delay
of `min(300, 60·2^5)` is applied — the claim's range `f = 1..5` fails at
`f = 5`. -/
theorem c7_no_delay_at_fifth_failure :
    (mainStep (Except.error (pys ("boom"))) 4).2 = LoopAction.terminated ∧
    (mainStep (Except.error (pys ("boom"))) 4).2 ≠ LoopAction.poll (min 300 (60 * 2 ^ 5)) :=
  ⟨rfl, by decide⟩

/-- C7 (amended): for consecutive failure counts `f = 1..4` the delay
applied before the next polling attempt is `min(300, 60·2^f)` seconds,
non-decreasing in `f` and capped at 300; at `f = 5` the loop terminates
without applying a delay. -/
theorem c7_backoff_delay (e : PyErr) (f : Nat) (h1 : 1 ≤ f) (h2 : f ≤ 4) :
    (mainStep (Except.error e) (f - 1)).2 = LoopAction.poll (min 300 (60 * 2 ^ f)) ∧
    min 300 (60 * 2 ^ f) ≤ min 300 (60 * 2 ^ (f + 1)) ∧
    min 300 (60 * 2 ^ f) ≤ 300 ∧
    (mainStep (Except.error e) 4).2 = LoopAction.terminated := by
  interval_cases f <;> exact ⟨rfl, by decide, by decide, rfl⟩

/-- C7 witness: the amended theorem at `f = 3`. -/
theorem c7_backoff_delay_witness :
    (mainStep (Except.error (pys ("db down"))) 2).2 = LoopAction.poll (min 300 (60 * 2 ^ 3)) ∧
    min 300 (60 * 2 ^ 3) ≤ min 300 (60 * 2 ^ (3 + 1)) ∧
    min 300 (60 * 2 ^ 3) ≤ 300 ∧
    (mainStep (Except.error (pys ("db down"))) 4).2 = LoopAction.terminated :=
  c7_backoff_delay (pys ("db down")) 3 (by omega) (by omega)

/-- The composed tweet length is the sum of its segments' lengths. -/
theorem composeText_length (m : Market) (index total : Nat) (td : PyStr) :
    (composeText m index total td).length =
      (headerPre index total).length + (td.length + (tailSegs m).length) := by
  simp [composeText, List.length_append]

/-- The composed tweet starts with the header followed by the
title/description text. -/
theorem startsWith_composeText (m : Market) (index total : Nat) (td : PyStr) :
    StartsWith (headerPre index total ++ td) (composeText m index total td) :=
  ⟨tailSegs m, by simp [composeText, List.append_assoc]⟩

/-- The composed tweet starts with the position-indicator header. -/
theorem startsWith_headerPre_composeText (m : Market) (index total : Nat) (td : PyStr) :
    StartsWith (headerPre index total) (composeText m index total td) :=
  ⟨td ++ tailSegs m, by simp [composeText, List.append_assoc]⟩

/-- The expiry segment occurs in every composed tweet. -/
theorem segIn_expirySeg_composeText (m : Market) (index total : Nat) (td : PyStr) :
    SegIn (expirySeg m) (composeText m index total td) :=
  ⟨headerPre index total ++ td ++ questionSeg m, linkSeg m, by
    simp [composeText, tailSegs, List.append_assoc]⟩

/-- The composed tweet is never empty. -/
theorem composeText_ne_nil (m : Market) (index total : Nat) (td : PyStr) :
    composeText m index total td ≠ [] := by
  intro h
  have hlen := congrArg List.length h
  rw [composeText_length] at hlen
  have h9 : (pys ("🎯 Market ")).length = 9 := rfl
  have hhp : 9 ≤ (headerPre index total).length := by
    simp only [headerPre, List.length_append, h9]
    omega
  simp only [List.length_nil] at hlen
  omega

/-- C2 counterexample: a market with no title and no description and a
250-character unparseable expiry composes to 290 characters; the
re-truncation budget `280 - 290 + 0` is below 20, so `format_market_tweet`
returns the composed text unchanged — 290 characters, above the claimed
280-character bound. -/
theorem c2_overlong_output :
    (format_market_tweet c2market 1 1).toOption.map List.length = some 290 ∧ ¬ (290 ≤ 280) :=
  ⟨rfl, by decide⟩

/-- C2 (amended): when the composed text is within 280 characters,
`format_market_tweet` returns it — non-empty, starting with the header
(position indicator plus title/description/placeholder) and containing the
expiry segment.  When the composed text exceeds 280 characters, the
re-truncation path returns non-empty text of length exactly 280 (again with
header and expiry segments) provided the recomputed budget
`280 - len + len(title-or-description)` exceeds 20 and the expiry
timestamp parsed; outside those provisos the code returns the overlong
text unchanged (budget ≤ 20) or raises (unparseable expiry), as the
counterexamples for C2 and C4 show. -/
theorem c2_format_length_behavior (m : Market) (index total : Nat) :
    ((composeText m index total (titleOrDesc m)).length ≤ 280 →
      format_market_tweet m index total = Except.ok (composeText m index total (titleOrDesc m)) ∧
      composeText m index total (titleOrDesc m) ≠ [] ∧
      StartsWith (headerPre index total ++ titleOrDesc m) (composeText m index total (titleOrDesc m)) ∧
      SegIn (expirySeg m) (composeText m index total (titleOrDesc m))) ∧
    (280 < (composeText m index total (titleOrDesc m)).length →
      20 < (280 - ((composeText m index total (titleOrDesc m)).length : Int) +
            ((titleOrDescEmpty m).length : Int)) →
      (expiryParsed m).isSome = true →
      ∃ t, format_market_tweet m index total = Except.ok t ∧ t.length = 280 ∧ t ≠ [] ∧
        StartsWith (headerPre index total) t ∧ SegIn (expirySeg m) t) := by
  constructor
  · intro h1
    have hno : ¬ 280 < (composeText m index total (titleOrDesc m)).length := by omega
    refine ⟨?_, composeText_ne_nil m index total (titleOrDesc m),
      startsWith_composeText m index total (titleOrDesc m),
      segIn_expirySeg_composeText m index total (titleOrDesc m)⟩
    unfold format_market_tweet
    rw [if_neg hno]
  · intro h1 h2 h3
    obtain ⟨es, hes⟩ := Option.isSome_iff_exists.mp h3
    have hEq : titleOrDesc m = titleOrDescEmpty m := by
      unfold titleOrDesc titleOrDescEmpty
      cases ht : m.title with
      | some t => rfl
      | none =>
        cases hd : m.description with
        | some d => rfl
        | none =>
          exfalso
          have h0 : titleOrDescEmpty m = [] := by simp [titleOrDescEmpty, ht, hd]
          rw [h0] at h2
          simp at h2
          omega
    refine ⟨composeText m index total
        ((titleOrDescEmpty m).take
          ((280 - ((composeText m index total (titleOrDesc m)).length : Int) +
            ((titleOrDescEmpty m).length : Int) - 3).toNat) ++ pys ("...")),
      ?_, ?_, composeText_ne_nil m index total _,
      startsWith_headerPre_composeText m index total _,
      segIn_expirySeg_composeText m index total _⟩
    · unfold format_market_tweet
      rw [if_pos h1, if_pos h2]
      simp only [hes]
    · have h3len : (pys ("...")).length = 3 := rfl
      rw [composeText_length, List.length_append, List.length_take, h3len]
      rw [composeText_length m index total (titleOrDesc m), hEq] at h1 h2 ⊢
      omega

/-- C2 witness: the amended theorem's two branches at concrete markets —
`c2small` (composed text within the limit) and `c2big` (300-character
title, parseable expiry, budget above 20, re-truncated to exactly 280). -/
theorem c2_format_length_behavior_witness :
    (format_market_tweet c2small 1 1 = Except.ok (composeText c2small 1 1 (titleOrDesc c2small)) ∧
     composeText c2small 1 1 (titleOrDesc c2small) ≠ [] ∧
     StartsWith (headerPre 1 1 ++ titleOrDesc c2small) (composeText c2small 1 1 (titleOrDesc c2small)) ∧
     SegIn (expirySeg c2small) (composeText c2small 1 1 (titleOrDesc c2small))) ∧
    (∃ t, format_market_tweet c2big 1 1 = Except.ok t ∧ t.length = 280 ∧ t ≠ [] ∧
      StartsWith (headerPre 1 1) t ∧ SegIn (expirySeg c2big) t) := by
  constructor
  · exact (c2_format_length_behavior c2small 1 1).1 (by decide)
  · exact (c2_format_length_behavior c2big 1 1).2 (by decide) (by decide) (by decide)
